import Mathlib

/-!
Verification of the notes DOCX conversion subsystem
(`backend/open_webui/utils/notes_docx_conversion.py`).

The Python module is shallowly embedded below.  Python strings are modelled
as Lean `String`s, with the Python string methods re-implemented as
executable functions over the underlying character lists (restricted to the
ASCII behaviour of `isdigit`, `strip` and `\s`, which is all the claims
exercise).  Parsed XML documents (`xml.etree.ElementTree`) are modelled by
the tree type `XElem`; a DOCX container that has been successfully opened by
`zipfile.ZipFile` is modelled as a finite association of part names to parsed
XML parts (`DocxZip`).  The ambient clock (`datetime.now`) is passed as an
explicit `now : String` argument, and the external markdown-to-HTML renderer
is passed as an explicit `render : String → String` argument.  Python
exceptions escaping a function are modelled with `Except String`.
-/

/-! ## Python string primitives -/

/-- Model of Python string-order comparison `a < b`: lexicographic on
code points. -/
def lexLt : List Char → List Char → Bool
  | [], [] => false
  | [], _ :: _ => true
  | _ :: _, [] => false
  | a :: as, b :: bs =>
    if a.toNat < b.toNat then true
    else if a.toNat = b.toNat then lexLt as bs
    else false

/-- Boolean list prefix test (model of `str.startswith` after taking
`String.data`). -/
def chIsPre : List Char → List Char → Bool
  | [], _ => true
  | _ :: _, [] => false
  | p :: ps, c :: cs => p == c && chIsPre ps cs

/-- Model of Python `s.startswith(pre)`. -/
def pyStartsWith (s pre : String) : Bool := chIsPre pre.data s.data

/-- Model of Python `s.endswith(suf)`. -/
def pyEndsWith (s suf : String) : Bool := chIsPre suf.data.reverse s.data.reverse

/-- Model of Python `s.strip()` (ASCII whitespace). -/
def pyStrip (s : String) : String :=
  ⟨((s.data.dropWhile Char.isWhitespace).reverse.dropWhile Char.isWhitespace).reverse⟩

/-- Model of Python `s.isdigit()` (restricted to ASCII digits). -/
def pyIsDigit (s : String) : Bool := !s.data.isEmpty && s.data.all Char.isDigit

/-- Numeric value of a digit list, most significant digit first. -/
def digitsVal (l : List Char) : Nat := l.foldl (fun n c => n * 10 + (c.toNat - '0'.toNat)) 0

/-- Model of Python `int(s)` on a string of ASCII digits. -/
def strToNat (s : String) : Nat := digitsVal s.data

/-- Model of Python `sep.join(parts)`. -/
def strJoinSep (sep : String) : List String → String
  | [] => ""
  | [x] => x
  | x :: xs => x ++ sep ++ strJoinSep sep xs

/-- Split a character list at every newline; `n` newlines yield `n + 1`
chunks. -/
def splitOnNl : List Char → List (List Char)
  | [] => [[]]
  | c :: cs =>
    let r := splitOnNl cs
    if c = '\n' then [] :: r
    else
      match r with
      | [] => [[c]]
      | h :: t => (c :: h) :: t

/-- Model of Python `s.splitlines()` (the source only ever contains `\n`
line terminators): an empty string has no lines, and a trailing newline
does not produce a final empty line. -/
def pySplitlines (s : String) : List String :=
  if s = "" then []
  else
    let parts := splitOnNl s.data
    (if parts.getLast? = some [] then parts.dropLast else parts).map (fun l => ⟨l⟩)

/-- Consume `pat` from the front of `l`; `some` of the remainder when `pat`
is a prefix of `l`. -/
def stripPreCh : List Char → List Char → Option (List Char)
  | [], l => some l
  | _ :: _, [] => none
  | p :: ps, c :: cs => if c = p then stripPreCh ps cs else none

/-- Worker for `pyReplace`: left-to-right, non-overlapping replacement, the
semantics of Python `str.replace`.  The `fuel` argument (instantiated with
the length of the scanned list, which always suffices because a match
consumes at least one character) keeps the recursion structural. -/
def replFuel (pat rep : List Char) : Nat → List Char → List Char
  | 0, l => l
  | _, [] => []
  | fuel + 1, c :: cs =>
    if pat.isEmpty then c :: replFuel pat rep fuel cs
    else
      match stripPreCh pat (c :: cs) with
      | some rest => rep ++ replFuel pat rep fuel rest
      | none => c :: replFuel pat rep fuel cs

/-- Model of Python `s.replace(pat, rep)` for a non-empty pattern. -/
def pyReplace (s pat rep : String) : String :=
  ⟨replFuel pat.data rep.data s.data.length s.data⟩

/-- Model of Python `html.escape(s)` (default `quote=True`). -/
def pyHtmlEscape (s : String) : String :=
  let s := pyReplace s "&" "&amp;"
  let s := pyReplace s "<" "&lt;"
  let s := pyReplace s ">" "&gt;"
  let s := pyReplace s "\"" "&quot;"
  pyReplace s "\x27" "&#x27;"

/-- Sort key used for footnote/comment ids: `int(x) if x.isdigit() else x`.
The value is an `Int`-or-`str` union, modelled as a sum. -/
def pyKey (x : String) : Sum Nat String :=
  if pyIsDigit x then .inl (strToNat x) else .inr x

/-- Comparison of two sort keys.  Comparing an `int` key with a `str` key
raises `TypeError` in Python 3, modelled as an `Except.error`. -/
def pyLtKey : Sum Nat String → Sum Nat String → Except String Bool
  | .inl a, .inl b => .ok (decide (a < b))
  | .inr a, .inr b => .ok (lexLt a.data b.data)
  | _, _ => .error "TypeError: '<' not supported between instances of 'str' and 'int'"

/-- Stable insertion of `x` into an already sorted list, failing when a
key comparison fails. -/
def insertByKey (x : String) : List String → Except String (List String)
  | [] => .ok [x]
  | y :: ys => do
    let b ← pyLtKey (pyKey x) (pyKey y)
    if b then pure (x :: y :: ys)
    else do
      let r ← insertByKey x ys
      pure (y :: r)

/-- Model of Python `sorted(xs, key=lambda x: int(x) if x.isdigit() else x)`.
Any comparison-based sort of a list holding both `int` and `str` keys must
at some point compare an `int` key with a `str` key and hence raises
`TypeError`; on key-homogeneous lists every comparison sort agrees, so a
stable insertion sort is a faithful model of both outcomes. -/
def pySortedByKey : List String → Except String (List String)
  | [] => .ok []
  | x :: xs => do
    let r ← pySortedByKey xs
    insertByKey x r

/-- Stable insertion for plain ascending string sort. -/
def insertStr (x : String) : List String → List String
  | [] => [x]
  | y :: ys => if lexLt x.data y.data then x :: y :: ys else y :: insertStr x ys

/-- Model of Python `sorted(xs)` on strings. -/
def pySortedStr : List String → List String
  | [] => []
  | x :: xs => insertStr x (pySortedStr xs)

/-- Model of `re.sub(r"\.docx$", "", filename, flags=re.IGNORECASE)`. -/
def stripDocxSuffix (filename : String) : String :=
  let d := filename.data
  if decide (5 ≤ d.length) && ((d.drop (d.length - 5)).map Char.toLower == ".docx".data)
  then ⟨d.take (d.length - 5)⟩ else filename

/-- Model of `tag.split("}")[-1]`: the text after the last closing brace. -/
def localName (tag : String) : String :=
  ⟨tag.data.foldl (fun acc c => if c = '\x7d' then [] else acc ++ [c]) []⟩

/-- Python-dict insertion on an association list: the newest binding for a
key shadows any earlier one.  Only `lookup` on the result is ever observed
by the conversion code, so the binding order of the list is irrelevant. -/
def dictInsert (m : List (String × String)) (k v : String) : List (String × String) :=
  (k, v) :: m

/-! ## XML element model (`xml.etree.ElementTree`) -/

mutual
/-- A parsed XML element: tag, attributes, direct text, child elements. -/
inductive XElem : Type where
  | node (tag : String) (attrs : List (String × String)) (text : Option String) (children : XList)
/-- Children list of an element (a separate type so that all recursions
over the tree are structural). -/
inductive XList : Type where
  | nil
  | cons (e : XElem) (es : XList)
end

/-- Convert a Lean list of elements into an `XList`. -/
def XList.ofList : List XElem → XList
  | [] => .nil
  | e :: es => .cons e (XList.ofList es)

/-- Convert an `XList` back into a Lean list. -/
def XList.toList : XList → List XElem
  | .nil => []
  | .cons e es => e :: XList.toList es

/-- Element constructor taking an ordinary list of children. -/
def xe (tag : String) (attrs : List (String × String)) (text : Option String)
    (children : List XElem) : XElem :=
  .node tag attrs text (XList.ofList children)

/-- Tag of an element. -/
def XElem.tag : XElem → String
  | .node t _ _ _ => t

/-- Attributes of an element. -/
def XElem.attrs : XElem → List (String × String)
  | .node _ a _ _ => a

/-- Direct text content of an element (`Element.text`). -/
def XElem.text : XElem → Option String
  | .node _ _ x _ => x

/-- Direct children of an element, as a Lean list. -/
def XElem.children : XElem → List XElem
  | .node _ _ _ cs => cs.toList

mutual
/-- All elements of the list together with their descendants, in document
order (the order `ElementTree` uses for `.//` queries). -/
def descListX : XList → List XElem
  | .nil => []
  | .cons e es => e :: (descE e ++ descListX es)
/-- All proper descendants of an element, in document order. -/
def descE : XElem → List XElem
  | .node _ _ _ cs => descListX cs
end

/-- Model of `Element.find(tag)`: first direct child with the tag. -/
def findChild (e : XElem) (tagName : String) : Option XElem :=
  e.children.find? (fun c => c.tag == tagName)

/-- Model of `Element.findall(tag)`: all direct children with the tag. -/
def findallChildren (e : XElem) (tagName : String) : List XElem :=
  e.children.filter (fun c => c.tag == tagName)

/-- Model of `Element.findall(".//" + tag)`: all descendants with the tag,
in document order. -/
def findallDesc (e : XElem) (tagName : String) : List XElem :=
  (descE e).filter (fun c => c.tag == tagName)

/-- Model of `Element.find(".//" + tag)`: first descendant with the tag. -/
def findDesc (e : XElem) (tagName : String) : Option XElem :=
  (descE e).find? (fun c => c.tag == tagName)

/-- Model of `Element.attrib.get(key)`. -/
def attrGet (e : XElem) (key : String) : Option String :=
  e.attrs.lookup key

/-! ## Namespace constants and qualified names -/

def W_NS : String := "http://schemas.openxmlformats.org/wordprocessingml/2006/main"
def R_NS : String := "http://schemas.openxmlformats.org/officeDocument/2006/relationships"
def PKG_REL_NS : String := "http://schemas.openxmlformats.org/package/2006/relationships"
def CONTENT_TYPES_NS : String := "http://schemas.openxmlformats.org/package/2006/content-types"
def DRAWING_NS : String := "http://schemas.openxmlformats.org/drawingml/2006/main"

/-- Model of `_qn`: `"{" + ns + "}" + name`. -/
def _qn (ns name : String) : String := "\x7b" ++ ns ++ "\x7d" ++ name

/-! ## Container model -/

/-- A DOCX container that `zipfile.ZipFile` has successfully opened: the
named parts the converter may read, already parsed as XML. -/
structure DocxZip where
  parts : List (String × XElem)

/-- Model of `ZipFile.namelist()`. -/
def namelist (z : DocxZip) : List String := z.parts.map Prod.fst

/-- Model of reading and `ET.fromstring`-parsing a part; `none` when the
part is absent from the archive. -/
def readPart (z : DocxZip) (name : String) : Option XElem :=
  z.parts.lookup name

/-! ## Conversion report -/

/-- Counts of successfully mapped constructs (`report["mapped"]`). -/
structure Mapped where
  styles : Nat
  tables : Nat
  images : Nat
  footnotes : Nat
  comments : Nat
deriving DecidableEq, Repr

/-- The fidelity report threaded through a conversion call.  The import
report additionally records the source filename in `source`; the export
report has no such key, modelled here by leaving `source` empty. -/
structure Report where
  source : String
  mapped : Mapped
  unsupported_elements : List String
  lossy : Bool
deriving DecidableEq, Repr

/-- The initial report of `import_docx` (and, with `source = ""`, of
`export_note_to_docx`). -/
def initReport (source : String) : Report :=
  { source := source
    mapped := { styles := 0, tables := 0, images := 0, footnotes := 0, comments := 0 }
    unsupported_elements := []
    lossy := false }

/-- Model of `report["mapped"]["styles"] += 1`. -/
def bumpStyles (r : Report) : Report :=
  { r with mapped := { r.mapped with styles := r.mapped.styles + 1 } }

/-- Model of `report["mapped"]["tables"] += 1`. -/
def bumpTables (r : Report) : Report :=
  { r with mapped := { r.mapped with tables := r.mapped.tables + 1 } }

/-- Model of `report["mapped"]["images"] += 1`. -/
def bumpImages (r : Report) : Report :=
  { r with mapped := { r.mapped with images := r.mapped.images + 1 } }

/-- Model of `report["mapped"]["footnotes"] += 1`. -/
def bumpFootnotes (r : Report) : Report :=
  { r with mapped := { r.mapped with footnotes := r.mapped.footnotes + 1 } }

/-- Model of `report["mapped"]["comments"] += 1`. -/
def bumpComments (r : Report) : Report :=
  { r with mapped := { r.mapped with comments := r.mapped.comments + 1 } }

/-- Model of `report["unsupported_elements"].append(x)`. -/
def addUnsupported (r : Report) (x : String) : Report :=
  { r with unsupported_elements := r.unsupported_elements ++ [x] }

/-- Finalization shared by both pipelines: deduplicate and sort
`unsupported_elements` and recompute `lossy` from the result
(`unsupported = sorted(set(...)); report["lossy"] = bool(unsupported)`). -/
def finalizeReport (r : Report) : Report :=
  let unsupported := pySortedStr r.unsupported_elements.eraseDups
  { r with unsupported_elements := unsupported, lossy := !unsupported.isEmpty }

/-- The stored copy of the original upload (`original_attachment`).  The
base64 passthrough of the raw bytes is modelled by keeping the opened
container itself; `stored_at` is the sampled clock value. -/
structure OriginalAttachment where
  filename : String
  mime_type : String
  content : DocxZip
  stored_at : String

/-- Result record of `import_docx`. -/
structure DocxConversionResult where
  title : String
  markdown : String
  html : String
  report : Report
  original_attachment : Option OriginalAttachment

/-! ## Relationship and auxiliary-table extraction -/

/-- Model of `_build_relationship_map`. -/
def _build_relationship_map (z : DocxZip) : List (String × String) :=
  match readPart z "word/_rels/document.xml.rels" with
  | none => []
  | some root =>
    (findallChildren root (_qn PKG_REL_NS "Relationship")).foldl
      (fun rel_map rel =>
        match attrGet rel "Id", attrGet rel "Target" with
        | some rid, some target =>
          if rid ≠ "" && target ≠ "" then dictInsert rel_map rid target else rel_map
        | _, _ => rel_map)
      []

/-- Footnote (or comment) entry text: every `w:t` descendant's text joined
by single spaces, then stripped. -/
def entryText (e : XElem) : String :=
  pyStrip (strJoinSep " " ((findallDesc e (_qn W_NS "t")).map (fun t => t.text.getD "")))

/-- The `w:footnote` entries of the footnotes part ([] when the part is
absent). -/
def footnoteElems (z : DocxZip) : List XElem :=
  match readPart z "word/footnotes.xml" with
  | none => []
  | some root => findallChildren root (_qn W_NS "footnote")

/-- Processing of one `w:footnote` entry: skip when the id is absent or
empty, when the id starts with the negative marker, or when the entry text
is empty; otherwise record `id → text`. -/
def footnoteStep (m : List (String × String)) (fn : XElem) : List (String × String) :=
  match attrGet fn (_qn W_NS "id") with
  | none => m
  | some fn_id =>
    if fn_id == "" || pyStartsWith fn_id "-" then m
    else
      let text := entryText fn
      if text == "" then m else dictInsert m fn_id text

/-- Model of `_extract_footnotes`. -/
def _extract_footnotes (z : DocxZip) : List (String × String) :=
  (footnoteElems z).foldl footnoteStep []

/-- The `w:comment` entries of the comments part ([] when the part is
absent). -/
def commentElems (z : DocxZip) : List XElem :=
  match readPart z "word/comments.xml" with
  | none => []
  | some root => findallChildren root (_qn W_NS "comment")

/-- Processing of one `w:comment` entry: kept whenever the id is present
and non-empty and the entry text is non-empty (`if cid and text`); unlike
footnotes, ids starting with the negative marker are not excluded. -/
def commentStep (m : List (String × String)) (c : XElem) : List (String × String) :=
  match attrGet c (_qn W_NS "id") with
  | none => m
  | some cid =>
    let text := entryText c
    if cid == "" || text == "" then m else dictInsert m cid text

/-- Model of `_extract_comments`. -/
def _extract_comments (z : DocxZip) : List (String × String) :=
  (commentElems z).foldl commentStep []

/-! ## Run and paragraph conversion (import) -/

/-- Model of `_run_to_markdown`: text of the run's `w:t` children, wrapped
in bold/italic/underline markers from `w:rPr`; a `w:drawing` child either
resolves to an image fragment (returned instead of the text, incrementing
`mapped.images`) or records the unsupported element `"drawing"`. -/
def _run_to_markdown (run : XElem) (report : Report) (rel_map : List (String × String)) :
    String × Report :=
  let text0 := String.join ((findallChildren run (_qn W_NS "t")).map (fun node => node.text.getD ""))
  let text :=
    match findChild run (_qn W_NS "rPr") with
    | none => text0
    | some run_props =>
      let t := if (findChild run_props (_qn W_NS "b")).isSome then "**" ++ text0 ++ "**" else text0
      let t := if (findChild run_props (_qn W_NS "i")).isSome then "*" ++ t ++ "*" else t
      if (findChild run_props (_qn W_NS "u")).isSome then "<u>" ++ t ++ "</u>" else t
  match findChild run (_qn W_NS "drawing") with
  | none => (text, report)
  | some drawing =>
    match findDesc drawing (_qn DRAWING_NS "blip") with
    | some blip =>
      match attrGet blip (_qn R_NS "embed") with
      | some rid =>
        if rid ≠ "" then
          let target := (rel_map.lookup rid).getD "embedded-image"
          ("![Image](" ++ target ++ ")", bumpImages report)
        else (text, addUnsupported report "drawing")
      | none => (text, addUnsupported report "drawing")
    | none => (text, addUnsupported report "drawing")

/-- One step of the run fold: convert the run and append its markdown
fragment. -/
def runStep (rel_map : List (String × String)) (st : List String × Report) (run : XElem) :
    List String × Report :=
  let rr := _run_to_markdown run st.2 rel_map
  (st.1 ++ [rr.1], rr.2)

/-- Fold `_run_to_markdown` over the `w:r` children of a paragraph,
collecting the markdown fragments in order. -/
def runsFold (child : XElem) (rel_map : List (String × String))
    (acc : List String × Report) : List String × Report :=
  (findallChildren child (_qn W_NS "r")).foldl (runStep rel_map) acc

/-- Style-to-prefix mapping of the import path (lines 172–180 of the
source): `HeadingN` with numeric `N` yields `min 6 N` hash marks and a
space, `Title` yields `"# "`, `Subtitle` yields `"## "`; any of these
increments `mapped.styles`. -/
def stylePfx (style_val : String) (report : Report) : String × Report :=
  if pyStartsWith style_val "Heading" then
    let level := pyReplace style_val "Heading" ""
    if pyIsDigit level then
      (⟨List.replicate (min 6 (strToNat level)) '#'⟩ ++ " ", bumpStyles report)
    else ("", report)
  else if style_val == "Title" || style_val == "Subtitle" then
    (if style_val == "Subtitle" then "## " else "# ", bumpStyles report)
  else ("", report)

/-- Resolve a paragraph's style name through `w:pPr`/`w:pStyle` and apply
`stylePfx`; no style element means no prefix. -/
def paragraphStylePfx (child : XElem) (report : Report) : String × Report :=
  match findChild child (_qn W_NS "pPr") with
  | none => ("", report)
  | some p_props =>
    match findChild p_props (_qn W_NS "pStyle") with
    | none => ("", report)
    | some p_style => stylePfx ((attrGet p_style (_qn W_NS "val")).getD "") report

/-- Fold over the paragraph's `w:footnoteReference` descendants: each
reference whose id resolves in the footnote table is remembered, counted,
and appended as an inline `[^id]` marker. -/
def fnRefFold (child : XElem) (footnotes : List (String × String))
    (acc : List String × List String × Report) : List String × List String × Report :=
  (findallDesc child (_qn W_NS "footnoteReference")).foldl
    (fun (st : List String × List String × Report) fn_ref =>
      match attrGet fn_ref (_qn W_NS "id") with
      | some fn_id =>
        if fn_id ≠ "" && (footnotes.lookup fn_id).isSome then
          (st.1 ++ ["[^" ++ fn_id ++ "]"], st.2.1 ++ [fn_id], bumpFootnotes st.2.2)
        else st
      | none => st)
    acc

/-- Fold over the paragraph's `w:commentReference` descendants: each
reference whose id resolves in the comment table is remembered, counted,
and appended as an inline `[comment:id]` marker. -/
def cmRefFold (child : XElem) (comments : List (String × String))
    (acc : List String × List String × Report) : List String × List String × Report :=
  (findallDesc child (_qn W_NS "commentReference")).foldl
    (fun (st : List String × List String × Report) comment_ref =>
      match attrGet comment_ref (_qn W_NS "id") with
      | some cid =>
        if cid ≠ "" && (comments.lookup cid).isSome then
          (st.1 ++ ["[comment:" ++ cid ++ "]"], st.2.1 ++ [cid], bumpComments st.2.2)
        else st
      | none => st)
    acc

/-- Processing of one `w:p` body child (lines 166–202 of the source):
style prefix, run fragments, footnote and comment reference markers; the
paragraph text is the stripped concatenation and is dropped when empty. -/
def processParagraph (child : XElem) (footnotes comments rel_map : List (String × String))
    (blocks encF encC : List String) (report : Report) :
    List String × List String × List String × Report :=
  let sp := paragraphStylePfx child report
  let rs := runsFold child rel_map ([], sp.2)
  let fs := fnRefFold child footnotes (rs.1, [], rs.2)
  let cs := cmRefFold child comments (fs.1, [], fs.2.2)
  let text := pyStrip (sp.1 ++ String.join cs.1)
  (if text == "" then blocks else blocks ++ [text], encF ++ fs.2.1, encC ++ cs.2.1, cs.2.2)

/-! ## Table conversion (import) -/

/-- Markdown text of one cell paragraph: the run fragments joined and
stripped. -/
def cellParagraphText (p : XElem) (report : Report) (rel_map : List (String × String)) :
    String × Report :=
  let (parts, report) := runsFold p rel_map ([], report)
  (pyStrip (String.join parts), report)

/-- Row/cell extraction of `_parse_table` (lines 108–119 of the source):
each cell is its non-empty paragraph texts joined by `<br/>`, rows with no
cells are dropped. -/
def tableRows (table : XElem) (report : Report) (rel_map : List (String × String)) :
    List (List String) × Report :=
  (findallChildren table (_qn W_NS "tr")).foldl
    (fun (st : List (List String) × Report) tr =>
      let (row, rep) :=
        (findallChildren tr (_qn W_NS "tc")).foldl
          (fun (rst : List String × Report) tc =>
            let (cells, rep) :=
              (findallChildren tc (_qn W_NS "p")).foldl
                (fun (cst : List String × Report) p =>
                  let (paragraph, rep) := cellParagraphText p cst.2 rel_map
                  (if paragraph == "" then cst.1 else cst.1 ++ [paragraph], rep))
                ([], rst.2)
            (rst.1 ++ [if cells.isEmpty then "" else strJoinSep "<br/>" cells], rep))
          ([], st.2)
      (if row.isEmpty then st.1 else st.1 ++ [row], rep))
    ([], report)

/-- Right-pad a row with empty cells to the header's column count, then
truncate to that count (`(row + [""] * max(0, len(header) - len(row)))[:len(header)]`). -/
def padTruncate (header row : List String) : List String :=
  (row ++ List.replicate (header.length - row.length) "").take header.length

/-- Render one markdown table row (`f"| {' | '.join(cells)} |"`). -/
def mdRowString (cells : List String) : String :=
  "| " ++ strJoinSep " | " cells ++ " |"

/-- Model of `_parse_table`: empty tables yield the empty string; otherwise
the header row, a separator row, and every further row padded/truncated to
the header's width, with `mapped.tables` incremented. -/
def _parse_table (table : XElem) (report : Report) (rel_map : List (String × String)) :
    String × Report :=
  match tableRows table report rel_map with
  | ([], report) => ("", report)
  | (header :: rest, report) =>
    (strJoinSep "\n"
        (mdRowString header ::
          mdRowString (List.replicate header.length "---") ::
            rest.map (fun row => mdRowString (padTruncate header row))),
      bumpTables report)

/-! ## Import pipeline -/

/-- Processing of one top-level body child: paragraphs and tables are
converted, `w:sectPr` is ignored, and any other tag is recorded as
unsupported by its local name. -/
def bodyStep (footnotes comments rel_map : List (String × String))
    (st : List String × List String × List String × Report) (child : XElem) :
    List String × List String × List String × Report :=
  let (blocks, encF, encC, report) := st
  if child.tag == _qn W_NS "p" then
    processParagraph child footnotes comments rel_map blocks encF encC report
  else if child.tag == _qn W_NS "tbl" then
    let (table_md, report) := _parse_table child report rel_map
    (if table_md == "" then blocks else blocks ++ [table_md], encF, encC, report)
  else if child.tag == _qn W_NS "sectPr" then
    (blocks, encF, encC, report)
  else
    (blocks, encF, encC, addUnsupported report (localName child.tag))

/-- Append the trailing footnotes section when any footnote was
referenced: a heading block, then one block per distinct referenced id in
Python-`sorted` order of the `int`-or-`str` keys (which raises `TypeError`
on a mix of numeric and non-numeric ids). -/
def footnotesSection (blocks encF : List String) (footnotes : List (String × String)) :
    Except String (List String) :=
  if encF.isEmpty then .ok blocks
  else do
    let sortedIds ← pySortedByKey encF.eraseDups
    pure (blocks ++ ["\n## Footnotes"] ++
      sortedIds.map (fun fid => "[^" ++ fid ++ "]: " ++ (footnotes.lookup fid).getD ""))

/-- Append the trailing comments section, under the same ordering rule as
the footnotes section. -/
def commentsSection (blocks encC : List String) (comments : List (String × String)) :
    Except String (List String) :=
  if encC.isEmpty then .ok blocks
  else do
    let sortedIds ← pySortedByKey encC.eraseDups
    pure (blocks ++ ["\n## Comments"] ++
      sortedIds.map (fun cid => "- [" ++ cid ++ "] " ++ (comments.lookup cid).getD ""))

/-- Model of `import_docx`.  `z` is the successfully opened container,
`render` the external markdown-to-HTML renderer, and `now` the sampled
clock value (used only for the optional attachment's `stored_at`).  An
uncaught Python exception is an `Except.error`. -/
def import_docx (z : DocxZip) (filename : String) (store_original_attachment : Bool)
    (render : String → String) (now : String) : Except String DocxConversionResult :=
  match readPart z "word/document.xml" with
  | none => .error "Invalid DOCX file: missing word/document.xml"
  | some root =>
    match findChild root (_qn W_NS "body") with
    | none => .error "Invalid DOCX file: missing body"
    | some body =>
      let rel_map := _build_relationship_map z
      let footnotes := _extract_footnotes z
      let comments := _extract_comments z
      let st :=
        body.children.foldl (bodyStep footnotes comments rel_map)
          ([], [], [], initReport filename)
      match footnotesSection st.1 st.2.1 footnotes with
      | .error e => .error e
      | .ok blocks =>
        match commentsSection blocks st.2.2.1 comments with
        | .error e => .error e
        | .ok blocks =>
          let markdown_content := pyStrip (strJoinSep "\n\n" blocks)
          let html_content := render markdown_content
          let report := finalizeReport st.2.2.2
          let attachment :=
            match store_original_attachment with
            | true => some
                { filename := filename
                  mime_type := "application/vnd.openxmlformats-officedocument.wordprocessingml.document"
                  content := z
                  stored_at := now }
            | false => none
          let title :=
            if stripDocxSuffix filename == "" then "Imported Document"
            else stripDocxSuffix filename
          .ok
            { title := title
              markdown := markdown_content
              html := html_content
              report := report
              original_attachment := attachment }

/-! ## Export pipeline -/

/-- A line whose stripped form both starts and ends with a pipe (the
table-row test of the export line scanner). -/
def isTableLine (line : String) : Bool :=
  pyStartsWith (pyStrip line) "|" && pyEndsWith (pyStrip line) "|"

/-- A separator row: after removing every pipe and stripping, the line is
non-empty and consists solely of dashes
(`set(line.replace("|", "").strip()) == {"-"}`). -/
def isSepRow (line : String) : Bool :=
  let t := pyStrip (pyReplace line "|" "")
  !t.data.isEmpty && t.data.all (fun c => c == '-')

/-- Paragraph emission for one non-blank line (lines 264–276 of the
source): count the leading hash marks; when there is at least one and a
space follows, the remainder (stripped) is the text, otherwise the whole
line is; levels 1–6 carry a `HeadingN` style reference. -/
def emitLine (line : String) : String :=
  let heading_level := (line.data.takeWhile (fun c => c == '#')).length
  let text :=
    if heading_level ≠ 0 ∧ (line.data.drop heading_level).head? = some ' '
    then pyStrip ⟨line.data.drop heading_level⟩ else line
  let escaped := pyHtmlEscape text
  let ppr :=
    if 1 ≤ heading_level ∧ heading_level ≤ 6 then
      "<w:pPr><w:pStyle w:val=\"Heading" ++ toString heading_level ++ "\"/></w:pPr>"
    else ""
  "<w:p>" ++ ppr ++ "<w:r><w:t xml:space=\"preserve\">" ++ escaped ++ "</w:t></w:r></w:p>"

/-- One step of the export line scanner (lines 251–276 of the source).
The state is the emitted paragraphs so far and the `in_table` flag. -/
def lineStep (acc : List String × Bool) (line : String) : List String × Bool :=
  let (paragraphs, in_table) := acc
  if isTableLine line then (paragraphs, true)
  else if in_table && (isSepRow line || pyStrip line == "") then (paragraphs, in_table)
  else
    -- here `in_table and not isTableLine line` forces the flag to False
    if pyStrip line == "" then (paragraphs ++ ["<w:p/>"], false)
    else (paragraphs ++ [emitLine line], false)

/-- Fixed head of the generated main document part. -/
def docXmlHead : String :=
  "<?xml version=\"1.0\" encoding=\"UTF-8\" standalone=\"yes\"?>\n" ++
  "<w:document xmlns:wpc=\"http://schemas.microsoft.com/office/word/2010/wordprocessingCanvas\" xmlns:mc=\"http://schemas.openxmlformats.org/markup-compatibility/2006\" xmlns:o=\"urn:schemas-microsoft-com:office:office\" xmlns:r=\"" ++ R_NS ++
  "\" xmlns:m=\"http://schemas.openxmlformats.org/officeDocument/2006/math\" xmlns:v=\"urn:schemas-microsoft-com:vml\" xmlns:wp14=\"http://schemas.microsoft.com/office/word/2010/wordprocessingDrawing\" xmlns:wp=\"http://schemas.openxmlformats.org/drawingml/2006/wordprocessingDrawing\" xmlns:w10=\"urn:schemas-microsoft-com:office:word\" xmlns:w=\"" ++ W_NS ++
  "\" mc:Ignorable=\"w14 wp14\">\n  <w:body>"

/-- Fixed tail of the generated main document part: section properties with
Letter page size and one-inch margins, in twentieths of a point. -/
def docXmlTail : String :=
  "<w:sectPr><w:pgSz w:w=\"12240\" w:h=\"15840\"/><w:pgMar w:top=\"1440\" w:right=\"1440\" w:bottom=\"1440\" w:left=\"1440\"/></w:sectPr></w:body>\n</w:document>"

/-- Model of `_md_to_docx_xml`: scan the markup lines with `lineStep` and
wrap the emitted paragraphs in the fixed document template.  (`title` is
accepted but unused, as in the source.) -/
def _md_to_docx_xml (title md : String) : String :=
  let _ := title
  let paragraphs := ((pySplitlines md).foldl lineStep ([], false)).1
  docXmlHead ++ String.join paragraphs ++ docXmlTail

/-- Does one line match `^#{1,6}\s` of the export style counter?  `hasNl`
says whether the line is terminated by a newline in the source text (in
which case that newline can serve as the required `\s`). -/
def headingLineMatch (l : List Char) (hasNl : Bool) : Bool :=
  let k := (l.takeWhile (fun c => c == '#')).length
  decide (1 ≤ k) && decide (k ≤ 6) &&
    (match l.drop k with
     | c :: _ => c.isWhitespace
     | [] => hasNl)

/-- Count the `re.findall(r"^#{1,6}\s", md, flags=re.MULTILINE)` matches:
one per newline-separated chunk whose head matches, where only the last
chunk lacks a terminating newline. -/
def countHeadingAux : List (List Char) → Nat
  | [] => 0
  | [last] => if headingLineMatch last false then 1 else 0
  | l :: rest => (if headingLineMatch l true then 1 else 0) + countHeadingAux rest

/-- Number of heading-marker lines of the source markup. -/
def countHeadingLines (md : String) : Nat :=
  countHeadingAux (splitOnNl md.data)

/-- Model of `re.search(r"\|.*\|", md)`: some line contains two pipes
(`.` does not match a newline). -/
def hasTableRow (md : String) : Bool :=
  (splitOnNl md.data).any (fun l => decide (2 ≤ l.count '|'))

/-- Drop characters up to and including the first occurrence of `c`;
`none` when `c` does not occur (the scan a regex character class up to its
closing delimiter performs). -/
def dropThrough (c : Char) : List Char → Option (List Char)
  | [] => none
  | x :: xs => if x = c then some xs else dropThrough c xs

/-- Model of `re.search(r"!\[[^\]]*\]\([^\)]+\)", md)`: at some position,
`![`, then (up to the first `]`) any characters, then `](`, then at least
one character before the next `)`. -/
def hasImageRefCh : List Char → Bool
  | [] => false
  | '!' :: rest =>
    (match rest with
     | '[' :: r1 =>
       match dropThrough ']' r1 with
       | some r2 =>
         (match r2 with
          | '(' :: r3 =>
            match dropThrough ')' r3 with
            | some _ => !(r3.takeWhile (fun c => c ≠ ')')).isEmpty
            | none => false
          | _ => false)
       | none => false
     | _ => false) || hasImageRefCh rest
  | _ :: rest => hasImageRefCh rest

/-- Model of `re.search(r"\[\^[^\]]+\]", md)`: at some position, `[^`,
then at least one character before the next `]`. -/
def hasFootnoteRefCh : List Char → Bool
  | [] => false
  | '[' :: rest =>
    (match rest with
     | '^' :: r1 =>
       match dropThrough ']' r1 with
       | some _ => !(r1.takeWhile (fun c => c ≠ ']')).isEmpty
       | none => false
     | _ => false) || hasFootnoteRefCh rest
  | _ :: rest => hasFootnoteRefCh rest

/-- The `[Content_Types].xml` part of the generated container. -/
def contentTypesXml : String :=
  "<?xml version=\"1.0\" encoding=\"UTF-8\" standalone=\"yes\"?>\n<Types xmlns=\"" ++ CONTENT_TYPES_NS ++
  "\">\n  <Default Extension=\"rels\" ContentType=\"application/vnd.openxmlformats-package.relationships+xml\"/>\n  <Default Extension=\"xml\" ContentType=\"application/xml\"/>\n  <Override PartName=\"/word/document.xml\" ContentType=\"application/vnd.openxmlformats-officedocument.wordprocessingml.document.main+xml\"/>\n  <Override PartName=\"/docProps/core.xml\" ContentType=\"application/vnd.openxmlformats-package.core-properties+xml\"/>\n  <Override PartName=\"/docProps/app.xml\" ContentType=\"application/vnd.openxmlformats-officedocument.extended-properties+xml\"/>\n</Types>"

/-- The `_rels/.rels` part of the generated container. -/
def relsXml : String :=
  "<?xml version=\"1.0\" encoding=\"UTF-8\" standalone=\"yes\"?>\n<Relationships xmlns=\"" ++ PKG_REL_NS ++
  "\">\n  <Relationship Id=\"rId1\" Type=\"http://schemas.openxmlformats.org/officeDocument/2006/relationships/officeDocument\" Target=\"word/document.xml\"/>\n  <Relationship Id=\"rId2\" Type=\"http://schemas.openxmlformats.org/package/2006/relationships/metadata/core-properties\" Target=\"docProps/core.xml\"/>\n  <Relationship Id=\"rId3\" Type=\"http://schemas.openxmlformats.org/officeDocument/2006/relationships/extended-properties\" Target=\"docProps/app.xml\"/>\n</Relationships>"

/-- The `docProps/app.xml` part of the generated container. -/
def appXml : String :=
  "<?xml version=\"1.0\" encoding=\"UTF-8\" standalone=\"yes\"?>\n<Properties xmlns=\"http://schemas.openxmlformats.org/officeDocument/2006/extended-properties\" xmlns:vt=\"http://schemas.openxmlformats.org/officeDocument/2006/docPropsVTypes\"><Application>Open WebUI</Application></Properties>"

/-- The `docProps/core.xml` part of the generated container: escaped
title, fixed creator, and the sampled clock value as the created/modified
timestamps. -/
def coreXml (title now : String) : String :=
  "<?xml version=\"1.0\" encoding=\"UTF-8\" standalone=\"yes\"?>\n<cp:coreProperties xmlns:cp=\"http://schemas.openxmlformats.org/package/2006/metadata/core-properties\" xmlns:dc=\"http://purl.org/dc/elements/1.1/\" xmlns:dcterms=\"http://purl.org/dc/terms/\" xmlns:dcmitype=\"http://purl.org/dc/dcmitype/\" xmlns:xsi=\"http://www.w3.org/2001/XMLSchema-instance\"><dc:title>" ++ pyHtmlEscape title ++
  "</dc:title><dc:creator>Open WebUI</dc:creator><cp:lastModifiedBy>Open WebUI</cp:lastModifiedBy><dcterms:created xsi:type=\"dcterms:W3CDTF\">" ++ now ++
  "</dcterms:created><dcterms:modified xsi:type=\"dcterms:W3CDTF\">" ++ now ++
  "</dcterms:modified></cp:coreProperties>"

/-- Model of `export_note_to_docx`.  `now` is the sampled clock value
(`datetime.now(timezone.utc).isoformat().replace("+00:00", "Z")`).  The
returned container is the list of named parts written to the zip archive,
in their fixed insertion order. -/
def export_note_to_docx (title markdown_content : String) (now : String) :
    List (String × String) × Report :=
  let report := initReport ""
  let xml := _md_to_docx_xml title markdown_content
  let report := { report with mapped := { report.mapped with styles := countHeadingLines markdown_content } }
  let report := if hasTableRow markdown_content then addUnsupported report "tables" else report
  let report := if hasImageRefCh markdown_content.data then addUnsupported report "images" else report
  let report := if hasFootnoteRefCh markdown_content.data then addUnsupported report "footnotes" else report
  let report := finalizeReport report
  ([("[Content_Types].xml", contentTypesXml),
    ("_rels/.rels", relsXml),
    ("docProps/app.xml", appXml),
    ("docProps/core.xml", coreXml title now),
    ("word/document.xml", xml)],
   report)

/-! ## Concrete fixtures used by the witnesses and counterexamples -/

/-- A `w:t` element holding the given text. -/
def tElem (s : String) : XElem := xe (_qn W_NS "t") [] (some s) []

/-- A plain run holding the given text. -/
def rElem (s : String) : XElem := xe (_qn W_NS "r") [] none [tElem s]

/-- A table cell holding one paragraph with the given text. -/
def tcElem (s : String) : XElem :=
  xe (_qn W_NS "tc") [] none [xe (_qn W_NS "p") [] none [rElem s]]

/-- A container holding only an empty-bodied main document. -/
def zTrivial : DocxZip :=
  ⟨[("word/document.xml",
     xe (_qn W_NS "document") [] none [xe (_qn W_NS "body") [] none []])]⟩

/-- The import result of `zTrivial` under filename `a.docx`. -/
def resTrivial : DocxConversionResult :=
  { title := "a"
    markdown := ""
    html := ""
    report :=
      { source := "a.docx"
        mapped := { styles := 0, tables := 0, images := 0, footnotes := 0, comments := 0 }
        unsupported_elements := []
        lossy := false }
    original_attachment := none }

/-- A container with no parts at all (in particular no main document). -/
def zNoDocument : DocxZip := ⟨[]⟩

/-- A footnote definition entry. -/
def fnDef (fid txt : String) : XElem :=
  xe (_qn W_NS "footnote") [(_qn W_NS "id", fid)] none [tElem txt]

/-- A footnote reference element. -/
def fnRef (fid : String) : XElem :=
  xe (_qn W_NS "footnoteReference") [(_qn W_NS "id", fid)] none []

/-- A container whose document references the two footnotes `1` and `a`,
both defined in the footnotes part: the trailing-section sort then has to
compare an `int` key with a `str` key. -/
def zMixedIds : DocxZip :=
  ⟨[("word/document.xml",
     xe (_qn W_NS "document") [] none
       [xe (_qn W_NS "body") [] none
         [xe (_qn W_NS "p") [] none [fnRef "1", fnRef "a"]]]),
    ("word/footnotes.xml",
     xe (_qn W_NS "footnotes") [] none [fnDef "1" "first", fnDef "a" "second"])]⟩

/-- A comments part holding a single entry whose id carries the negative
(separator) marker but whose text is non-empty. -/
def zNegComment : DocxZip :=
  ⟨[("word/comments.xml",
     xe (_qn W_NS "comments") [] none
       [xe (_qn W_NS "comment") [(_qn W_NS "id", "-1")] none [tElem "note"]])]⟩

/-- A two-column table whose second row has a single populated cell. -/
def tblTwoCol : XElem :=
  xe (_qn W_NS "tbl") [] none
    [xe (_qn W_NS "tr") [] none [tcElem "h1", tcElem "h2"],
     xe (_qn W_NS "tr") [] none [tcElem "a"]]

/-- A container whose document body holds just `tblTwoCol`. -/
def zTwoColTable : DocxZip :=
  ⟨[("word/document.xml",
     xe (_qn W_NS "document") [] none [xe (_qn W_NS "body") [] none [tblTwoCol]])]⟩

/-- A one-column table whose second row has two populated cells (the
truncation case of row rectangularization). -/
def tblOneCol : XElem :=
  xe (_qn W_NS "tbl") [] none
    [xe (_qn W_NS "tr") [] none [tcElem "h"],
     xe (_qn W_NS "tr") [] none [tcElem "a", tcElem "b"]]

/-- A `Heading2`-styled paragraph with no runs at all. -/
def pEmptyHeading : XElem :=
  xe (_qn W_NS "p") [] none
    [xe (_qn W_NS "pPr") [] none
      [xe (_qn W_NS "pStyle") [(_qn W_NS "val", "Heading2")] none []]]


/-! ## Helper lemmas -/

/-- Looking up a key that is not among the keys of an association list
yields `none`. -/
theorem lookup_none_of_not_mem {β : Type} : ∀ (l : List (String × β)) (a : String),
    a ∉ l.map Prod.fst → l.lookup a = none
  | [], _, _ => rfl
  | (k, _) :: rest, a, h => by
    simp only [List.map_cons, List.mem_cons, not_or] at h
    have hk : (a == k) = false := beq_eq_false_iff_ne.mpr h.1
    simp only [List.lookup, hk]
    exact lookup_none_of_not_mem rest a h.2

/-! ## Claims -/

/-- C5: importing a container whose part list lacks the main document part
`word/document.xml` fails with the format error surfaced to the caller,
and no conversion result is produced. -/
theorem c5_missing_document_part_errors (z : DocxZip) (filename : String)
    (flag : Bool) (render : String → String) (now : String)
    (h : "word/document.xml" ∉ namelist z) :
    import_docx z filename flag render now =
      .error "Invalid DOCX file: missing word/document.xml" := by
  have hl : readPart z "word/document.xml" = none :=
    lookup_none_of_not_mem z.parts _ h
  unfold import_docx
  rw [hl]

/-- C5 witness: the empty container has no main document part, so its
conversion fails with the format error. -/
theorem c5_missing_document_witness :
    import_docx zNoDocument "x.docx" false (fun s => s) "T" =
      .error "Invalid DOCX file: missing word/document.xml" :=
  c5_missing_document_part_errors zNoDocument "x.docx" false (fun s => s) "T"
    (by simp [namelist, zNoDocument])

/-- C1: every report returned to the caller — by a successful import, and
by every export — satisfies `lossy = (unsupported_elements is non-empty)`;
the final report mutation recomputes `lossy` from `unsupported_elements`. -/
theorem c1_lossy_recomputed_from_unsupported :
    (∀ (z : DocxZip) (filename : String) (flag : Bool) (render : String → String)
        (now : String) (res : DocxConversionResult),
      import_docx z filename flag render now = .ok res →
      res.report.lossy = !res.report.unsupported_elements.isEmpty) ∧
    (∀ title md now : String,
      (export_note_to_docx title md now).2.lossy =
        !(export_note_to_docx title md now).2.unsupported_elements.isEmpty) := by
  constructor
  · intro z filename flag render now res h
    unfold import_docx at h
    dsimp only at h
    repeat' split at h
    all_goals
      first
        | (rw [Except.ok.injEq] at h; subst h; rfl)
        | simp at h
  · intro title md now
    rfl

/-- C1 witness: the trivial container imports successfully and its report
satisfies the invariant. -/
theorem c1_lossy_witness :
    resTrivial.report.lossy = !resTrivial.report.unsupported_elements.isEmpty := by
  have h : import_docx zTrivial "a.docx" false (fun s => s) "T" = .ok resTrivial := rfl
  exact c1_lossy_recomputed_from_unsupported.1 zTrivial "a.docx" false (fun s => s) "T"
    resTrivial h

set_option maxRecDepth 16000 in
set_option maxHeartbeats 2000000 in
/-- C2 counterexample: two export runs on the same title and markup text
but at different clock readings produce different containers (the
core-properties part embeds the sampled timestamp), so export is not a
pure function of title and text alone. -/
theorem c2_export_not_clock_independent :
    ¬ (export_note_to_docx "t" "x" "2024-01-01T00:00:00Z" =
       export_note_to_docx "t" "x" "2024-01-02T00:00:00Z") := by
  decide

set_option maxRecDepth 16000 in
set_option maxHeartbeats 1600000 in
/-- C2 as amended: both pipelines are deterministic functions of their
input together with the sampled clock value; the fidelity report and the
part names never depend on the clock, and an import that does not store
the original attachment is fully clock-independent. -/
theorem c2_deterministic_given_clock (z : DocxZip) (filename : String)
    (render : String → String) (now₁ now₂ : String) :
    import_docx z filename false render now₁ = import_docx z filename false render now₂ ∧
    (∀ flag : Bool,
      (import_docx z filename flag render now₁).map
          (fun r => (r.title, r.markdown, r.html, r.report)) =
        (import_docx z filename flag render now₂).map
          (fun r => (r.title, r.markdown, r.html, r.report))) ∧
    ∀ title md : String,
      (export_note_to_docx title md now₁).2 = (export_note_to_docx title md now₂).2 ∧
      (export_note_to_docx title md now₁).1.map Prod.fst =
        (export_note_to_docx title md now₂).1.map Prod.fst ∧
      (export_note_to_docx title md now₁).1.filter (fun p => p.1 != "docProps/core.xml") =
        (export_note_to_docx title md now₂).1.filter (fun p => p.1 != "docProps/core.xml") := by
  refine ⟨?_, fun flag => ?_, fun title md => ⟨?_, ?_, ?_⟩⟩
  · rfl
  · unfold import_docx
    dsimp only
    repeat' split
    all_goals rfl
  · rfl
  · rfl
  · rfl

/-- C3: on a structurally valid container whose referenced footnote ids mix
a purely numeric id with a non-numeric one, the trailing-section sort
compares an `int` key with a `str` key and the import raises `TypeError`
instead of ordering the non-numeric ids after the numeric ones. -/
theorem c3_mixed_ids_raise_type_error :
    import_docx zMixedIds "n.docx" false (fun s => s) "T" =
      .error "TypeError: '<' not supported between instances of 'str' and 'int'" := by
  have h : import_docx zMixedIds "n.docx" false (fun s => s) "T" =
      .error "TypeError: '<' not supported between instances of 'str' and 'int'" := rfl
  exact h

/-- C4 counterexample: the style `Heading0` passes the numeric-style test,
increments `mapped.styles`, and emits `min 6 0 = 0` hash marks — a heading
level of 0, not the claimed clamp to at least 1 (the prefix is a bare
space, not `"# "`). -/
theorem c4_heading0_not_clamped :
    stylePfx "Heading0" (initReport "doc.docx") =
      (" ", bumpStyles (initReport "doc.docx")) ∧
    (" " : String) ≠ "# " := ⟨rfl, by decide⟩

/-- A pattern is a Boolean prefix of itself followed by anything. -/
theorem chIsPre_append_self : ∀ (p t : List Char), chIsPre p (p ++ t) = true
  | [], _ => rfl
  | c :: cs, t => by simp [chIsPre, chIsPre_append_self cs t]

/-- Consuming a pattern from a list that starts with it leaves the rest. -/
theorem stripPreCh_append_self : ∀ (p t : List Char), stripPreCh p (p ++ t) = some t
  | [], _ => rfl
  | c :: cs, t => by simp [stripPreCh, stripPreCh_append_self cs t]

/-- Replacement leaves a list unchanged when no character of the list can
start the (non-empty) pattern. -/
theorem replFuel_of_head_notMem (p : Char) (ps rep : List Char) :
    ∀ (fuel : Nat) (l : List Char), (∀ c ∈ l, c ≠ p) →
      replFuel (p :: ps) rep fuel l = l
  | 0, l, _ => by cases l <;> rfl
  | _ + 1, [], _ => rfl
  | fuel + 1, c :: cs, h => by
    have hc : c ≠ p := h c (List.mem_cons_self c cs)
    have hrest : ∀ x ∈ cs, x ≠ p := fun x hx => h x (List.mem_cons_of_mem c hx)
    rw [replFuel]
    simp only [List.isEmpty_cons, Bool.false_eq_true, if_false, stripPreCh, if_neg hc]
    exact congrArg (c :: ·) (replFuel_of_head_notMem p ps rep fuel cs hrest)

/-- One replacement step at a position where the pattern matches. -/
theorem replFuel_cons_match (p : Char) (ps rep : List Char) (fuel : Nat) (rest : List Char) :
    replFuel (p :: ps) rep (fuel + 1) (p :: (ps ++ rest)) =
      rep ++ replFuel (p :: ps) rep fuel rest := by
  rw [replFuel]
  simp [stripPreCh, stripPreCh_append_self]

/-- `pyReplace` removes a leading occurrence of the pattern when the rest
of the string cannot contain the pattern's head character. -/
theorem pyReplace_strip_leading (p : Char) (ps ds : List Char)
    (hds : ∀ c ∈ ds, c ≠ p) :
    pyReplace (⟨p :: ps⟩ ++ ⟨ds⟩) ⟨p :: ps⟩ "" = (⟨ds⟩ : String) := by
  show (⟨replFuel (p :: ps) [] ((p :: ps) ++ ds).length ((p :: ps) ++ ds)⟩ : String) = ⟨ds⟩
  have hl : ((p :: ps) ++ ds).length = (ps ++ ds).length + 1 := by simp
  rw [hl]
  show (⟨replFuel (p :: ps) [] ((ps ++ ds).length + 1) (p :: (ps ++ ds))⟩ : String) = ⟨ds⟩
  rw [replFuel_cons_match, replFuel_of_head_notMem p ps [] _ ds hds]
  rfl

/-- Digit characters are never the letter `H`. -/
theorem digit_ne_H {c : Char} (h : c.isDigit) : c ≠ 'H' := fun he => by
  subst he
  exact absurd h (by decide)

/-- C4 as amended: a `Heading` style followed by a non-empty string of
digits denoting `N` maps to `min 6 N` hash marks (clamped above to 6 but
not below: `Heading0` yields zero hash marks), `Title` maps to level 1 and
`Subtitle` to level 2, and `mapped.styles` is incremented on every such
match. -/
theorem c4_heading_level_min_six (ds : List Char) (r : Report)
    (hne : ds ≠ []) (hdig : ∀ c ∈ ds, c.isDigit) :
    stylePfx ("Heading" ++ ⟨ds⟩) r =
      ((⟨List.replicate (min 6 (digitsVal ds)) '#'⟩ : String) ++ " ", bumpStyles r) ∧
    stylePfx "Title" r = ("# ", bumpStyles r) ∧
    stylePfx "Subtitle" r = ("## ", bumpStyles r) := by
  refine ⟨?_, rfl, rfl⟩
  have hstart : pyStartsWith ("Heading" ++ ⟨ds⟩) "Heading" = true := by
    unfold pyStartsWith
    rw [String.data_append]
    exact chIsPre_append_self _ _
  have hrepl : pyReplace ("Heading" ++ ⟨ds⟩) "Heading" "" = (⟨ds⟩ : String) :=
    pyReplace_strip_leading 'H' "eading".data ds
      (fun c hc => digit_ne_H (hdig c hc))
  have hdigit : pyIsDigit ⟨ds⟩ = true := by
    obtain ⟨c, cs, rfl⟩ := List.exists_cons_of_ne_nil hne
    show (!(c :: cs).isEmpty && (c :: cs).all Char.isDigit) = true
    simp only [List.isEmpty_cons, Bool.not_false, Bool.true_and, List.all_eq_true]
    exact fun x hx => hdig x hx
  unfold stylePfx
  rw [hstart, hrepl]
  simp only [if_true, hdigit]
  rfl

/-- C4 witness: `Heading10` is clamped to six hash marks and increments
the style count. -/
theorem c4_heading_clamp_witness :
    stylePfx "Heading10" (initReport "w.docx") =
      ("###### ", bumpStyles (initReport "w.docx")) :=
  (c4_heading_level_min_six ['1', '0'] (initReport "w.docx") (by decide)
    (by decide)).1

/-- C6 counterexample: a comment entry whose id carries the negative
(separator) marker but whose text is non-empty is kept in the comment
table, not skipped — the negative-marker skip applies only to footnotes. -/
theorem c6_comment_negative_id_kept :
    _extract_comments zNegComment = [("-1", "note")] ∧
    ((_extract_comments zNegComment).lookup "-1").isSome = true := ⟨rfl, rfl⟩

/-- C8 counterexample: the two-column table whose second row has a single
populated cell `a` emits the data row `"| a |  |"` (two spaces between the
final pipes), not the claimed `"| a | |"`. -/
theorem c8_row_has_double_space :
    (_parse_table tblTwoCol (initReport "t.docx") []).1 =
      "| h1 | h2 |\n| --- | --- |\n| a |  |" ∧
    ("| a |  |" : String) ≠ "| a | |" := ⟨rfl, by decide⟩

/-- C8 as amended: importing a document holding the two-column table whose
second row has a single populated cell `a` produces the markup whose last
data row is `"| a |  |"` — the padded empty trailing cell renders as the
empty string between the ` | ` separator and the ` |` suffix. -/
theorem c8_two_col_table_row :
    (import_docx zTwoColTable "t.docx" false (fun s => s) "T").map
        (fun r => r.markdown) =
      .ok "| h1 | h2 |\n| --- | --- |\n| a |  |" := by
  have h : (import_docx zTwoColTable "t.docx" false (fun s => s) "T").map
        (fun r => r.markdown) =
      .ok "| h1 | h2 |\n| --- | --- |\n| a |  |" := rfl
  exact h

/-- C9 counterexample: a blank line seen while `in_table` is consumed and
skipped — the scanner stays in the table state and emits nothing, rather
than exiting and yielding the empty-paragraph marker. -/
theorem c9_blank_in_table_not_marker :
    lineStep ([], true) "" = ([], true) ∧
    (([], true) : List String × Bool) ≠ (["<w:p/>"], false) := ⟨rfl, by decide⟩

/-- C9 as amended: a pipe-delimited line enters or continues `in_table`
and emits nothing; a line inside `in_table` that is a separator row or
blank is consumed and skipped without leaving the state; any other line
inside `in_table` exits the state and is classified under the normal
rules. -/
theorem c9_line_scanner_transitions (ps : List String) (st : Bool) (line : String) :
    (isTableLine line = true → lineStep (ps, st) line = (ps, true)) ∧
    (isTableLine line = false → (isSepRow line || (pyStrip line == "")) = true →
      lineStep (ps, true) line = (ps, true)) ∧
    (isTableLine line = false → isSepRow line = false → (pyStrip line == "") = false →
      lineStep (ps, true) line = (ps ++ [emitLine line], false)) := by
  refine ⟨fun h1 => ?_, fun h1 h2 => ?_, fun h1 h2 h3 => ?_⟩
  · unfold lineStep
    simp [h1]
  · unfold lineStep
    simp [h1, h2]
  · unfold lineStep
    simp [h1, h2, h3]

/-- C7: for every imported table with at least one non-empty row, the
emitted markup consists of the header row, the separator row, and one data
row per remaining extracted row, each padded or truncated by `padTruncate`
to exactly the header's column count. -/
theorem c7_data_rows_rectangular (tbl : XElem) (report rep : Report)
    (rel_map : List (String × String)) (header : List String) (rest : List (List String))
    (h : tableRows tbl report rel_map = (header :: rest, rep)) :
    (_parse_table tbl report rel_map).1 =
      strJoinSep "\n"
        (mdRowString header ::
          mdRowString (List.replicate header.length "---") ::
            rest.map (fun row => mdRowString (padTruncate header row))) ∧
    ∀ row ∈ rest, (padTruncate header row).length = header.length := by
  constructor
  · unfold _parse_table
    rw [h]
  · intro row _
    unfold padTruncate
    rw [List.length_take, List.length_append, List.length_replicate]
    omega

/-- C7 witness: the one-column table whose second row has two cells — the
extra cell is truncated away and the data row has the header's single
column. -/
theorem c7_rectangular_witness :
    (_parse_table tblOneCol (initReport "w.docx") []).1 =
      strJoinSep "\n"
        (mdRowString ["h"] ::
          mdRowString (List.replicate (["h"] : List String).length "---") ::
            ([["a", "b"]].map (fun row => mdRowString (padTruncate ["h"] row)))) ∧
    ∀ row ∈ [["a", "b"]], (padTruncate ["h"] row).length = (["h"] : List String).length :=
  c7_data_rows_rectangular tblOneCol (initReport "w.docx") (initReport "w.docx") []
    ["h"] [["a", "b"]] (by rfl)

/-- Converting one run never changes the mapped style count. -/
theorem run_to_markdown_styles (run : XElem) (report : Report)
    (rel_map : List (String × String)) :
    (_run_to_markdown run report rel_map).2.mapped.styles = report.mapped.styles := by
  unfold _run_to_markdown
  repeat' split
  all_goals rfl

/-- Folding run conversion over any run list never changes the mapped
style count. -/
theorem runsFoldl_styles (rel_map : List (String × String)) :
    ∀ (l : List XElem) (acc : List String × Report),
      ((l.foldl (runStep rel_map) acc).2).mapped.styles = acc.2.mapped.styles
  | [], _ => rfl
  | run :: rest, acc => by
    rw [List.foldl_cons, runsFoldl_styles rel_map rest]
    exact run_to_markdown_styles run acc.2 rel_map

/-- Stripping a string of `n + 1` hash marks followed by a space removes
exactly the trailing space. -/
theorem pyStrip_hashes (n : Nat) :
    pyStrip ((⟨List.replicate (n + 1) '#'⟩ : String) ++ " ") = ⟨List.replicate (n + 1) '#'⟩ := by
  have hdw : List.dropWhile Char.isWhitespace (List.replicate (n + 1) '#') =
      List.replicate (n + 1) '#' := by
    rw [List.replicate_succ, List.dropWhile_cons,
      if_neg (by decide : ¬(Char.isWhitespace '#' = true))]
  unfold pyStrip
  rw [String.data_append]
  rw [show (" " : String).data = [' '] from rfl]
  rw [show List.replicate (n + 1) '#' ++ [' '] = '#' :: (List.replicate n '#' ++ [' ']) from
    by rw [List.replicate_succ, List.cons_append]]
  rw [List.dropWhile_cons, if_neg (by decide : ¬(Char.isWhitespace '#' = true))]
  rw [show ('#' :: (List.replicate n '#' ++ [' '])) = List.replicate (n + 1) '#' ++ [' '] from
    by rw [List.replicate_succ, List.cons_append]]
  rw [List.reverse_append, List.reverse_singleton, List.singleton_append]
  rw [List.dropWhile_cons, if_pos (by decide : Char.isWhitespace ' ' = true)]
  rw [List.reverse_replicate, hdw, List.reverse_replicate]

/-- A non-empty run of hash marks is not the empty string. -/
theorem hashes_ne_empty (n : Nat) :
    ((⟨List.replicate (n + 1) '#'⟩ : String) == "") = false := by
  apply beq_eq_false_iff_ne.mpr
  intro h
  have hd := congrArg String.data h
  simp [List.replicate_succ] at hd

/-- Appending the empty string is the identity. -/
theorem str_append_empty (s : String) : s ++ "" = s := by
  cases s with
  | mk data =>
    show (⟨data ++ []⟩ : String) = ⟨data⟩
    rw [List.append_nil]

/-- C10: a paragraph whose style maps to a heading prefix of `n + 1` hash
marks, whose runs contribute no text, and whose footnote and comment
references contribute nothing, is not dropped: it emits a block of exactly
the hash marks (the prefix's trailing space is trimmed away) and the style
count is still incremented. -/
theorem c10_empty_heading_paragraph_kept
    (child : XElem) (footnotes comments rel_map : List (String × String))
    (blocks encF encC : List String) (report : Report) (n : Nat)
    (hstyle : paragraphStylePfx child report =
      ((⟨List.replicate (n + 1) '#'⟩ : String) ++ " ", bumpStyles report))
    (hruns : String.join (runsFold child rel_map ([], bumpStyles report)).1 = "")
    (hfn : ∀ acc, fnRefFold child footnotes acc = acc)
    (hcm : ∀ acc, cmRefFold child comments acc = acc) :
    processParagraph child footnotes comments rel_map blocks encF encC report =
      (blocks ++ [⟨List.replicate (n + 1) '#'⟩], encF, encC,
        (runsFold child rel_map ([], bumpStyles report)).2) ∧
    ((runsFold child rel_map ([], bumpStyles report)).2).mapped.styles =
      report.mapped.styles + 1 := by
  constructor
  · unfold processParagraph
    rw [hstyle]
    dsimp only
    rw [hfn, hcm]
    dsimp only
    rw [hruns, str_append_empty, pyStrip_hashes, hashes_ne_empty]
    simp
  · unfold runsFold
    rw [runsFoldl_styles]
    rfl

/-- C10 witness: an empty `Heading2` paragraph yields the block `"##"` and
increments the style count. -/
theorem c10_empty_heading_witness :
    processParagraph pEmptyHeading [] [] [] [] [] [] (initReport "w2.docx") =
      ([⟨List.replicate 2 '#'⟩], [], [],
        (runsFold pEmptyHeading [] ([], bumpStyles (initReport "w2.docx"))).2) ∧
    ((runsFold pEmptyHeading [] ([], bumpStyles (initReport "w2.docx"))).2).mapped.styles =
      (initReport "w2.docx").mapped.styles + 1 :=
  c10_empty_heading_paragraph_kept pEmptyHeading [] [] [] [] [] [] (initReport "w2.docx") 1
    (by rfl) (by rfl) (fun _ => rfl) (fun _ => rfl)

/-- Lookup into a freshly consed binding. -/
theorem lookup_cons_isSome (m : List (String × String)) (k v a : String) :
    (((k, v) :: m).lookup a).isSome = true ↔ a = k ∨ (m.lookup a).isSome = true := by
  cases h : a == k with
  | true =>
    have hak : a = k := beq_iff_eq.mp h
    simp [List.lookup, h, hak]
  | false =>
    have hak : ¬a = k := beq_eq_false_iff_ne.mp h
    simp [List.lookup, h, hak]

/-- One footnote entry contributes its id exactly under the keep
conditions of `footnoteStep`. -/
theorem footnoteStep_lookup (m : List (String × String)) (fn : XElem) (a : String) :
    ((footnoteStep m fn).lookup a).isSome = true ↔
      ((attrGet fn (_qn W_NS "id") = some a ∧ a ≠ "" ∧ pyStartsWith a "-" = false ∧
        entryText fn ≠ "") ∨ (m.lookup a).isSome = true) := by
  unfold footnoteStep
  cases hid : attrGet fn (_qn W_NS "id") with
  | none => simp [hid]
  | some fid =>
    dsimp only
    by_cases h1 : (fid == "" || pyStartsWith fid "-") = true
    · rw [if_pos h1]
      rw [Bool.or_eq_true, beq_iff_eq] at h1
      constructor
      · exact fun h => Or.inr h
      · rintro (⟨heq, hne, hpre, _⟩ | h)
        · rw [Option.some.injEq] at heq
          subst heq
          rcases h1 with h1 | h1
          · exact absurd h1 hne
          · rw [h1] at hpre
            exact absurd hpre (by decide)
        · exact h
    · rw [if_neg h1]
      rw [Bool.or_eq_true, not_or, beq_iff_eq, Bool.not_eq_true] at h1
      obtain ⟨hne, hpre⟩ := h1
      by_cases h2 : (entryText fn == "") = true
      · rw [if_pos h2]
        rw [beq_iff_eq] at h2
        constructor
        · exact fun h => Or.inr h
        · rintro (⟨heq, _, _, htext⟩ | h)
          · exact absurd h2 htext
          · exact h
      · rw [if_neg h2]
        rw [Bool.not_eq_true, beq_eq_false_iff_ne] at h2
        show (((fid, entryText fn) :: m).lookup a).isSome = true ↔ _
        rw [lookup_cons_isSome]
        constructor
        · rintro (rfl | h)
          · exact Or.inl ⟨rfl, hne, hpre, h2⟩
          · exact Or.inr h
        · rintro (⟨heq, _, _, _⟩ | h)
          · rw [Option.some.injEq] at heq
            exact Or.inl heq.symm
          · exact Or.inr h

/-- One comment entry contributes its id exactly under the keep conditions
of `commentStep`: unlike footnotes, the negative marker is not checked. -/
theorem commentStep_lookup (m : List (String × String)) (c : XElem) (a : String) :
    ((commentStep m c).lookup a).isSome = true ↔
      ((attrGet c (_qn W_NS "id") = some a ∧ a ≠ "" ∧ entryText c ≠ "") ∨
        (m.lookup a).isSome = true) := by
  unfold commentStep
  cases hid : attrGet c (_qn W_NS "id") with
  | none => simp [hid]
  | some cid =>
    dsimp only
    by_cases h1 : (cid == "" || entryText c == "") = true
    · rw [if_pos h1]
      rw [Bool.or_eq_true, beq_iff_eq, beq_iff_eq] at h1
      constructor
      · exact fun h => Or.inr h
      · rintro (⟨heq, hne, htext⟩ | h)
        · rw [Option.some.injEq] at heq
          subst heq
          rcases h1 with h1 | h1
          · exact absurd h1 hne
          · exact absurd h1 htext
        · exact h
    · rw [if_neg h1]
      rw [Bool.or_eq_true, not_or, beq_iff_eq, beq_iff_eq] at h1
      obtain ⟨hne, htext⟩ := h1
      show (((cid, entryText c) :: m).lookup a).isSome = true ↔ _
      rw [lookup_cons_isSome]
      constructor
      · rintro (rfl | h)
        · exact Or.inl ⟨rfl, hne, htext⟩
        · exact Or.inr h
      · rintro (⟨heq, _, _⟩ | h)
        · rw [Option.some.injEq] at heq
          exact Or.inl heq.symm
        · exact Or.inr h

/-- Folding `footnoteStep` over a list of entries keeps exactly the
entries satisfying the keep conditions (plus what was already kept). -/
theorem foldl_footnoteStep_lookup : ∀ (es : List XElem) (m : List (String × String)) (a : String),
    ((es.foldl footnoteStep m).lookup a).isSome = true ↔
      ((m.lookup a).isSome = true ∨ ∃ fn ∈ es,
        attrGet fn (_qn W_NS "id") = some a ∧ a ≠ "" ∧ pyStartsWith a "-" = false ∧
          entryText fn ≠ "")
  | [], m, a => by simp
  | e :: rest, m, a => by
    rw [List.foldl_cons, foldl_footnoteStep_lookup rest, footnoteStep_lookup]
    simp only [List.mem_cons]
    constructor
    · rintro ((hk | hm) | ⟨fn, hfn, hk⟩)
      · exact Or.inr ⟨e, Or.inl rfl, hk⟩
      · exact Or.inl hm
      · exact Or.inr ⟨fn, Or.inr hfn, hk⟩
    · rintro (hm | ⟨fn, (rfl | hfn), hk⟩)
      · exact Or.inl (Or.inr hm)
      · exact Or.inl (Or.inl hk)
      · exact Or.inr ⟨fn, hfn, hk⟩

/-- Folding `commentStep` over a list of entries keeps exactly the
entries satisfying its keep conditions (plus what was already kept). -/
theorem foldl_commentStep_lookup : ∀ (es : List XElem) (m : List (String × String)) (a : String),
    ((es.foldl commentStep m).lookup a).isSome = true ↔
      ((m.lookup a).isSome = true ∨ ∃ c ∈ es,
        attrGet c (_qn W_NS "id") = some a ∧ a ≠ "" ∧ entryText c ≠ "")
  | [], m, a => by simp
  | e :: rest, m, a => by
    rw [List.foldl_cons, foldl_commentStep_lookup rest, commentStep_lookup]
    simp only [List.mem_cons]
    constructor
    · rintro ((hk | hm) | ⟨c, hc, hk⟩)
      · exact Or.inr ⟨e, Or.inl rfl, hk⟩
      · exact Or.inl hm
      · exact Or.inr ⟨c, Or.inr hc, hk⟩
    · rintro (hm | ⟨c, (rfl | hc), hk⟩)
      · exact Or.inl (Or.inr hm)
      · exact Or.inl (Or.inl hk)
      · exact Or.inr ⟨c, hc, hk⟩

/-- C6 as amended: an id appears in the footnote table exactly when some
footnote entry carries it, it is non-empty, it does not start with the
negative marker, and the entry's stripped text is non-empty; for the
comment table the same holds except that the negative-marker condition is
not applied. -/
theorem c6_extraction_skip_conditions (z : DocxZip) (k : String) :
    (((_extract_footnotes z).lookup k).isSome = true ↔
      ∃ fn ∈ footnoteElems z, attrGet fn (_qn W_NS "id") = some k ∧ k ≠ "" ∧
        pyStartsWith k "-" = false ∧ entryText fn ≠ "") ∧
    (((_extract_comments z).lookup k).isSome = true ↔
      ∃ c ∈ commentElems z, attrGet c (_qn W_NS "id") = some k ∧ k ≠ "" ∧
        entryText c ≠ "") := by
  constructor
  · unfold _extract_footnotes
    rw [foldl_footnoteStep_lookup]
    simp
  · unfold _extract_comments
    rw [foldl_commentStep_lookup]
    simp

/-- C9 witness: the three scanner transitions at concrete lines — a table
row, a separator row inside a table, and a plain line inside a table. -/
theorem c9_line_scanner_witness :
    lineStep ([], false) "|a|" = ([], true) ∧
    lineStep ([], true) " --- " = ([], true) ∧
    lineStep ([], true) "x" =
      (["<w:p><w:r><w:t xml:space=\"preserve\">x</w:t></w:r></w:p>"], false) :=
  ⟨(c9_line_scanner_transitions [] false "|a|").1 (by decide),
   (c9_line_scanner_transitions [] true " --- ").2.1 (by decide) (by decide),
   (c9_line_scanner_transitions [] true "x").2.2 (by decide) (by decide) (by decide)⟩
